import Mathlib

/-!
Shallow embedding of the ClinVar submission filter pipeline
(`src/clinvar_data.py` and `src/variant_filter.py`).

A pandas `DataFrame` of variant records is modelled as a list of
(row-index, record) pairs; the row index plays the role of the pandas
index label, which `drop_subset` keys on.  Each cell is `Option`-valued:
`none` models a pandas null (`NaN`/`NaT`) in that column.
-/

/-- One row of the ClinVar table, with the columns the pipeline touches
(`src` column names kept verbatim).  `UUID` is the column inserted by
`insert_uuid`; it is absent (`none`) until then. -/
structure Record where
  UUID : Option String := none
  Start : Option Int := none
  Stop : Option Int := none
  Chromosome : Option String := none
  mondo_pheno : Option String := none
  Classification : Option String := none
  Build : Option String := none
  Reference : Option String := none
  Alternate : Option String := none
  Variant_type : Option String := none
  Summary_status : Option String := none
  Proband_HPO_terms : Option String := none
  Inheritance : Option String := none
  LastModifiedDate : Option String := none
  deriving DecidableEq, Repr

/-- A dataframe: ordered rows, each carrying its pandas index label. -/
abbrev DF := List (Nat × Record)

/-- `df[["Start","Chromosome","mondo_pheno","Classification","Build"]].isnull().any(axis=1)`:
the row has a null in at least one required column
(`clinvar_data.filter_missing`, `clinvar_data.filter_na`). -/
def requiredNull (r : Record) : Bool :=
  r.Start.isNone || r.Chromosome.isNone || r.mondo_pheno.isNone ||
    r.Classification.isNone || r.Build.isNone

/-- `clinvar_data.filter_missing`: rows with missing data in a required column. -/
def filter_missing (df : DF) : DF :=
  df.filter fun p => requiredNull p.2

/-- `clinvar_data.filter_na`: `df.dropna(subset=[Start, Chromosome, mondo_pheno,
Classification, Build])` — rows with no null in any required column. -/
def filter_na (df : DF) : DF :=
  df.filter fun p => !requiredNull p.2

/-- `clinvar_data.retrieve_large_variant_types`:
`df[df["Variant_type"].isin(types)]` followed by
`df_indels[(df_indels["Stop"] - df_indels["Start"]) >= min_size]`.
A null `Variant_type` is not `isin` any list, and in pandas `NaN - x` is `NaN`
and `NaN >= min_size` is `False`, so a row with a null `Stop` (or `Start`) is
dropped by the size comparison rather than crashing. -/
def retrieve_large_variant_types (df : DF) (min_size : Int) (types : List String) : DF :=
  let df_indels := df.filter fun p =>
    match p.2.Variant_type with
    | some t => types.contains t
    | none => false
  df_indels.filter fun p =>
    match p.2.Stop, p.2.Start with
    | some stop, some start => decide (min_size ≤ stop - start)
    | _, _ => false

/-- C2: the missing-data split with required fields {Start, Chromosome,
mondo_pheno, Classification, Build} produces two subsets — `filter_missing`
(some required field null) and `filter_na` (no required field null) — that are
disjoint, whose union is the input, and whose internal order follows input
order (each is a sublist of the input). -/
theorem C2_missing_split (df : DF) :
    (∀ p : Nat × Record, p ∈ df ↔ (p ∈ filter_missing df ∨ p ∈ filter_na df)) ∧
    (∀ p : Nat × Record, p ∈ filter_missing df → p ∈ filter_na df → False) ∧
    (filter_missing df).Sublist df ∧
    (filter_na df).Sublist df ∧
    (∀ p ∈ filter_missing df, requiredNull p.2 = true) ∧
    (∀ p ∈ filter_na df, requiredNull p.2 = false) := by
  refine ⟨?_, ?_, List.filter_sublist df, List.filter_sublist df, ?_, ?_⟩
  · intro p
    constructor
    · intro hp
      by_cases h : requiredNull p.2 = true
      · exact Or.inl (by simp [filter_missing, List.mem_filter, hp, h])
      · exact Or.inr (by simp [filter_na, List.mem_filter, hp, h])
    · rintro (hp | hp)
      · exact (List.mem_filter.mp hp).1
      · exact (List.mem_filter.mp hp).1
  · intro p hm hc
    have h1 := (List.mem_filter.mp hm).2
    have h2 := (List.mem_filter.mp hc).2
    simp only [Bool.not_eq_true'] at h2
    rw [h1] at h2
    exact Bool.true_eq_false.mp h2
  · intro p hp
    exact (List.mem_filter.mp hp).2
  · intro p hp
    have h2 := (List.mem_filter.mp hp).2
    simpa using h2

/-- C2 witness: the split evaluated at a two-row table, one row missing its
`Build`, one complete. -/
theorem C2_missing_split_witness :
    ((0, { Start := some 5, Chromosome := some "1" : Record }) ∈
        filter_missing [(0, { Start := some 5, Chromosome := some "1" : Record }),
          (1, { Start := some 7, Chromosome := some "2", mondo_pheno := some "MONDO:1",
                Classification := some "benign_variant", Build := some "GRCh38" : Record })] →
      (0, { Start := some 5, Chromosome := some "1" : Record }) ∈
        filter_na [(0, { Start := some 5, Chromosome := some "1" : Record }),
          (1, { Start := some 7, Chromosome := some "2", mondo_pheno := some "MONDO:1",
                Classification := some "benign_variant", Build := some "GRCh38" : Record })] →
      False) := by
  intro hm hc
  exact (C2_missing_split _).2.1 _ hm hc

/-- C3: every row in the large-variant subset has a `Variant_type` in the
configured set and computable size `stop - start ≥ min_size`; in particular a
row with a null `Stop` never appears in the subset (the extraction is a total
function, so no arithmetic over nulls can fail). -/
theorem C3_large_variants (df : DF) (min_size : Int) (types : List String) :
    (∀ p ∈ retrieve_large_variant_types df min_size types,
      p ∈ df ∧
      (∃ t, p.2.Variant_type = some t ∧ t ∈ types) ∧
      (∃ start stop, p.2.Start = some start ∧ p.2.Stop = some stop ∧
        min_size ≤ stop - start)) ∧
    (∀ p : Nat × Record, p.2.Stop = none → p ∉ retrieve_large_variant_types df min_size types) := by
  constructor
  · intro p hp
    simp only [retrieve_large_variant_types, List.mem_filter] at hp
    obtain ⟨⟨hdf, htype⟩, hsize⟩ := hp
    refine ⟨hdf, ?_, ?_⟩
    · cases hvt : p.2.Variant_type with
      | none => rw [hvt] at htype; exact absurd htype (by simp)
      | some t =>
        rw [hvt] at htype
        exact ⟨t, rfl, by simpa [List.contains, List.elem_iff] using htype⟩
    · cases hst : p.2.Stop with
      | none => rw [hst] at hsize; exact absurd hsize (by simp)
      | some stop =>
        cases hsa : p.2.Start with
        | none => rw [hst, hsa] at hsize; exact absurd hsize (by simp)
        | some start =>
          rw [hst, hsa] at hsize
          exact ⟨start, stop, rfl, rfl, by simpa using hsize⟩
  · intro p hstop hp
    simp only [retrieve_large_variant_types, List.mem_filter] at hp
    obtain ⟨-, hsize⟩ := hp
    rw [hstop] at hsize
    exact absurd hsize (by simp)

/-- C3 witness: a deletion of size 80 is kept; a deletion with a null `Stop`
is excluded. -/
theorem C3_large_variants_witness :
    ((3, { Start := some 100, Stop := some 180, Variant_type := some "deletion" : Record }) ∈ [(3, { Start := some 100, Stop := some 180, Variant_type := some "deletion" : Record }), (4, { Start := some 5, Variant_type := some "deletion" : Record })] ∧
      (∃ t, (some "deletion" : Option String) = some t ∧ t ∈ ["amplification", "deletion", "insertion"]) ∧
      (∃ start stop, (some (100:Int) : Option Int) = some start ∧ (some (180:Int) : Option Int) = some stop ∧ (50:Int) ≤ stop - start)) ∧
    (4, { Start := some 5, Variant_type := some "deletion" : Record }) ∉
      retrieve_large_variant_types [(3, { Start := some 100, Stop := some 180, Variant_type := some "deletion" : Record }), (4, { Start := some 5, Variant_type := some "deletion" : Record })] 50 ["amplification", "deletion", "insertion"] := by
  constructor
  · exact (C3_large_variants _ 50 _).1 _ (by decide)
  · exact (C3_large_variants _ 50 _).2 _ rfl

/-- The identity key of `clinvar_data.filter_duplicates`:
(Start, Stop, Chromosome, Reference, Alternate, mondo_pheno).  pandas
`drop_duplicates` treats `NaN` as equal to `NaN`, which `Option` equality
matches. -/
def dupKey (r : Record) :
    Option Int × Option Int × Option String × Option String × Option String × Option String :=
  (r.Start, r.Stop, r.Chromosome, r.Reference, r.Alternate, r.mondo_pheno)

/-- The key type of `dupKey`. -/
abbrev DupKey :=
  Option Int × Option Int × Option String × Option String × Option String × Option String

/-- Scan of `drop_duplicates(..., keep="first")`: keep a row iff its key has
not been seen earlier in the scan. -/
def dedupGo (seen : List DupKey) : DF → DF
  | [] => []
  | p :: rest =>
    if dupKey p.2 ∈ seen then dedupGo seen rest
    else p :: dedupGo (dupKey p.2 :: seen) rest

/-- `clinvar_data.filter_duplicates`: `df.drop_duplicates(subset=[Start, Stop,
Chromosome, Reference, Alternate, mondo_pheno], keep="first")`. -/
def filter_duplicates (df : DF) : DF := dedupGo [] df

theorem dedupGo_sublist (seen : List DupKey) (l : DF) : (dedupGo seen l).Sublist l := by
  induction l generalizing seen with
  | nil => simp [dedupGo]
  | cons p rest ih =>
    simp only [dedupGo]
    by_cases h : dupKey p.2 ∈ seen
    · simp only [h, if_pos]
      exact (ih seen).cons p
    · simp only [h, if_neg, not_false_iff]
      exact (ih (dupKey p.2 :: seen)).cons₂ p

theorem mem_dedupGo_not_seen {seen : List DupKey} {l : DF} {p : Nat × Record}
    (hp : p ∈ dedupGo seen l) : dupKey p.2 ∉ seen := by
  induction l generalizing seen with
  | nil => simp [dedupGo] at hp
  | cons q rest ih =>
    simp only [dedupGo] at hp
    by_cases h : dupKey q.2 ∈ seen
    · rw [if_pos h] at hp
      exact ih hp
    · rw [if_neg h] at hp
      rcases List.mem_cons.mp hp with rfl | hp'
      · exact h
      · intro hc
        exact ih hp' (List.mem_cons_of_mem _ hc)

theorem dedupGo_pairwise (seen : List DupKey) (l : DF) :
    (dedupGo seen l).Pairwise (fun p q => dupKey p.2 ≠ dupKey q.2) := by
  induction l generalizing seen with
  | nil => simp [dedupGo]
  | cons p rest ih =>
    simp only [dedupGo]
    by_cases h : dupKey p.2 ∈ seen
    · rw [if_pos h]; exact ih seen
    · rw [if_neg h]
      refine List.Pairwise.cons ?_ (ih _)
      intro q hq
      have := mem_dedupGo_not_seen hq
      intro heq
      exact this (by rw [← heq]; exact List.mem_cons_self _ _)

theorem dedupGo_covers {l : DF} {p : Nat × Record} (hp : p ∈ l) :
    ∀ seen : List DupKey, dupKey p.2 ∉ seen →
      ∃ q ∈ dedupGo seen l, dupKey q.2 = dupKey p.2 := by
  induction l with
  | nil => simp at hp
  | cons r rest ih =>
    intro seen hseen
    simp only [dedupGo]
    rcases List.mem_cons.mp hp with rfl | hp'
    · rw [if_neg hseen]
      exact ⟨p, List.mem_cons_self _ _, rfl⟩
    · by_cases h : dupKey r.2 ∈ seen
      · rw [if_pos h]
        exact ih hp' seen hseen
      · rw [if_neg h]
        by_cases hk : dupKey p.2 = dupKey r.2
        · exact ⟨r, List.mem_cons_self _ _, hk.symm⟩
        · obtain ⟨q, hq, hqk⟩ := ih hp' (dupKey r.2 :: seen)
            (by simp [hseen, hk])
          exact ⟨q, List.mem_cons_of_mem _ hq, hqk⟩

theorem dedupGo_first {l : DF} {q : Nat × Record} :
    ∀ seen : List DupKey, q ∈ dedupGo seen l →
      (l.filter fun x => decide (dupKey x.2 = dupKey q.2)).head? = some q := by
  induction l with
  | nil => intro seen h; simp [dedupGo] at h
  | cons p rest ih =>
    intro seen hq
    have hqs := mem_dedupGo_not_seen hq
    simp only [dedupGo] at hq
    by_cases h : dupKey p.2 ∈ seen
    · rw [if_pos h] at hq
      have hne : dupKey p.2 ≠ dupKey q.2 := fun hc => hqs (hc ▸ h)
      rw [List.filter_cons, if_neg (by simpa using hne)]
      exact ih seen hq
    · rw [if_neg h] at hq
      rcases List.mem_cons.mp hq with rfl | hq'
      · simp [List.filter_cons]
      · have hnp : dupKey p.2 ≠ dupKey q.2 := by
          have hq'' := mem_dedupGo_not_seen hq'
          intro hc
          exact hq'' (by rw [← hc]; exact List.mem_cons_self _ _)
        rw [List.filter_cons, if_neg (by simpa using hnp)]
        exact ih (dupKey p.2 :: seen) hq'

theorem dedupGo_fixed {l : DF} (hpw : l.Pairwise (fun p q => dupKey p.2 ≠ dupKey q.2)) :
    ∀ seen : List DupKey, (∀ p ∈ l, dupKey p.2 ∉ seen) → dedupGo seen l = l := by
  induction l with
  | nil => intro seen _; rfl
  | cons p rest ih =>
    intro seen hseen
    have hp : dupKey p.2 ∉ seen := hseen p (List.mem_cons_self _ _)
    simp only [dedupGo, if_neg hp]
    congr 1
    apply ih (List.Pairwise.of_cons hpw)
    intro q hq
    have h1 : dupKey p.2 ≠ dupKey q.2 := (List.pairwise_cons.mp hpw).1 q hq
    have h2 : dupKey q.2 ∉ seen := hseen q (List.mem_cons_of_mem _ hq)
    simp only [List.mem_cons]
    rintro (hc | hc)
    · exact h1 hc.symm
    · exact h2 hc

/-- C4: deduplication keeps, for each identity key (Start, Stop, Chromosome,
Reference, Alternate, mondo_pheno), exactly the first row of the input with
that key: the output is an order-preserving sublist of the input, no two of
its rows share a key, every input key is still represented, each kept row is
the first input row bearing its key, the output is no longer than the input,
and the operation is idempotent. -/
theorem C4_filter_duplicates (df : DF) :
    (filter_duplicates df).Sublist df ∧
    (filter_duplicates df).Pairwise (fun p q => dupKey p.2 ≠ dupKey q.2) ∧
    (filter_duplicates df).length ≤ df.length ∧
    filter_duplicates (filter_duplicates df) = filter_duplicates df ∧
    (∀ p ∈ df, ∃ q ∈ filter_duplicates df, dupKey q.2 = dupKey p.2) ∧
    (∀ q ∈ filter_duplicates df,
      (df.filter fun x => decide (dupKey x.2 = dupKey q.2)).head? = some q) := by
  refine ⟨dedupGo_sublist [] df, dedupGo_pairwise [] df,
    (dedupGo_sublist [] df).length_le, ?_, ?_, ?_⟩
  · exact dedupGo_fixed (dedupGo_pairwise [] df) [] (by simp)
  · intro p hp
    exact dedupGo_covers hp [] (by simp)
  · intro q hq
    exact dedupGo_first [] hq

/-- C4 witness: the second row with a repeated key is dropped; the first is
the head of the rows with that key. -/
theorem C4_filter_duplicates_witness :
    ∃ q ∈ filter_duplicates
        [(0, { Start := some 1, mondo_pheno := some "MONDO:1" : Record }),
         (1, { Start := some 1, mondo_pheno := some "MONDO:1" : Record }),
         (2, { Start := some 2, mondo_pheno := some "MONDO:2" : Record })],
      dupKey q.2 = dupKey ({ Start := some 1, mondo_pheno := some "MONDO:1" : Record }) := by
  exact (C4_filter_duplicates _).2.2.2.2.1
    (1, { Start := some 1, mondo_pheno := some "MONDO:1" : Record }) (by decide)

/-- `clinvar_data.drop_subset`: `df[~df.index.isin(subset.index)]` — keep the
rows of `df` whose pandas index label does not occur among the subset's
labels.  Both inputs are read only (boolean-mask selection builds a fresh
frame). -/
def drop_subset (df subset : DF) : DF :=
  df.filter fun p => !(subset.any fun q => q.1 == p.1)

/-- C8: for a base frame with pairwise-distinct index labels and a subset
actually derived from it (every subset row occurs in the base), subset
subtraction returns exactly the base rows not present in the subset,
preserving the relative order of the survivors; neither input is mutated
(the operation is a pure selection). -/
theorem C8_drop_subset (df subset : DF)
    (hnodup : (df.map Prod.fst).Nodup)
    (hsub : ∀ q ∈ subset, q ∈ df) :
    (drop_subset df subset).Sublist df ∧
    (∀ p : Nat × Record, p ∈ drop_subset df subset ↔ (p ∈ df ∧ p ∉ subset)) := by
  refine ⟨List.filter_sublist df, ?_⟩
  intro p
  rw [drop_subset, List.mem_filter]
  constructor
  · rintro ⟨hdf, hmask⟩
    refine ⟨hdf, ?_⟩
    intro hps
    simp only [Bool.not_eq_true', List.any_eq_false] at hmask
    exact absurd (by simp : (p.1 == p.1) = true) (hmask p hps)
  · rintro ⟨hdf, hns⟩
    refine ⟨hdf, ?_⟩
    simp only [Bool.not_eq_true', List.any_eq_false]
    intro q hq
    have hqdf := hsub q hq
    have hne : q.1 ≠ p.1 := by
      intro hc
      have hqp : q = p := List.inj_on_of_nodup_map hnodup hqdf hdf hc
      exact hns (hqp ▸ hq)
    simp [hne]

/-- C8 witness: dropping a one-row subset from a two-row frame keeps exactly
the other row. -/
theorem C8_drop_subset_witness :
    (0, { Start := some 1 : Record }) ∈
      drop_subset [(0, { Start := some 1 : Record }), (1, { Start := some 2 : Record })]
        [(1, { Start := some 2 : Record })] ↔
      ((0, { Start := some 1 : Record }) ∈
          [(0, { Start := some 1 : Record }), (1, { Start := some 2 : Record })] ∧
        (0, { Start := some 1 : Record }) ∉ [(1, { Start := some 2 : Record })]) := by
  exact (C8_drop_subset _ _ (by decide) (by decide)).2 _

/-- `hasDisallowedNull r` is `df.drop(columns=["Stop", "Variant_type"]).isnull().values.any()`
restricted to row `r`: a null in any column other than `Stop` and
`Variant_type` (module-level invariant check of `variant_filter.py`). -/
def hasDisallowedNull (r : Record) : Bool :=
  r.UUID.isNone || r.Start.isNone || r.Chromosome.isNone || r.mondo_pheno.isNone ||
    r.Classification.isNone || r.Build.isNone || r.Reference.isNone || r.Alternate.isNone ||
    r.Summary_status.isNone || r.Proband_HPO_terms.isNone || r.Inheritance.isNone ||
    r.LastModifiedDate.isNone

/-- The run's final cleaned outputs: the main cleaned table and its partition
by genome build, produced only when the invariant check passes. -/
structure FinalOutputs where
  filtered : DF
  build_37 : DF
  build_38 : DF

/-- Module-level final stage of `variant_filter.py`: if any row has a null
outside {Stop, Variant_type}, raise `ValueError` (so none of the cleaned
outputs is produced); otherwise split the table with
`df[df["Build"] == "GRCh37"]` and `df[df["Build"] == "GRCh38"]` and hand all
three outputs to the export step. -/
def finalStage (df : DF) : Except String FinalOutputs :=
  if df.any fun p => hasDisallowedNull p.2 then
    Except.error "Dataframe contains empty values after filtering and reformatting"
  else
    Except.ok
      { filtered := df
        build_37 := df.filter fun p => p.2.Build == some "GRCh37"
        build_38 := df.filter fun p => p.2.Build == some "GRCh38" }

/-- C1: if any row reaching the final check has a null outside
{Stop, Variant_type}, the run aborts with an error and no final cleaned
output exists; if no such null exists, the check passes and the table is
partitioned by Build into build_37 (`"GRCh37"`) and build_38 (`"GRCh38"`),
rows with any other build value being retained only in the main cleaned
output. -/
theorem C1_invariant_check_and_partition (df : DF) :
    ((∃ p ∈ df, hasDisallowedNull p.2 = true) →
      finalStage df =
        Except.error "Dataframe contains empty values after filtering and reformatting") ∧
    ((∀ p ∈ df, hasDisallowedNull p.2 = false) →
      ∃ out : FinalOutputs, finalStage df = Except.ok out ∧
        out.filtered = df ∧
        (∀ p : Nat × Record, p ∈ out.build_37 ↔ (p ∈ df ∧ p.2.Build = some "GRCh37")) ∧
        (∀ p : Nat × Record, p ∈ out.build_38 ↔ (p ∈ df ∧ p.2.Build = some "GRCh38")) ∧
        (∀ p ∈ df, p.2.Build ≠ some "GRCh37" → p.2.Build ≠ some "GRCh38" →
          p ∈ out.filtered ∧ p ∉ out.build_37 ∧ p ∉ out.build_38)) := by
  constructor
  · rintro ⟨p, hp, hnull⟩
    have : (df.any fun p => hasDisallowedNull p.2) = true :=
      List.any_eq_true.mpr ⟨p, hp, hnull⟩
    simp [finalStage, this]
  · intro hclean
    have hany : (df.any fun p => hasDisallowedNull p.2) = false := by
      rw [List.any_eq_false]
      intro p hp
      simp [hclean p hp]
    refine ⟨{ filtered := df,
              build_37 := df.filter fun p => p.2.Build == some "GRCh37",
              build_38 := df.filter fun p => p.2.Build == some "GRCh38" },
      by simp [finalStage, hany], rfl, ?_, ?_, ?_⟩
    · intro p
      simp [List.mem_filter]
    · intro p
      simp [List.mem_filter]
    · intro p hp h37 h38
      refine ⟨hp, ?_, ?_⟩
      · intro hmem
        rcases List.mem_filter.mp hmem with ⟨-, hb⟩
        exact h37 (by simpa using hb)
      · intro hmem
        rcases List.mem_filter.mp hmem with ⟨-, hb⟩
        exact h38 (by simpa using hb)

/-- A fully populated record on an "other" build, used as concrete input. -/
def cleanRec : Record :=
  { UUID := some "uid_1", Start := some 1, Chromosome := some "1",
    mondo_pheno := some "MONDO:1", Classification := some "Benign",
    Build := some "GRCh36", Reference := some "A", Alternate := some "T",
    Variant_type := some "deletion", Summary_status := some "REPORTED_POSITIVE",
    Proband_HPO_terms := some "HP:0001250", Inheritance := some "Unknown",
    LastModifiedDate := some "2020-01-01" }

/-- `cleanRec` with its `Inheritance` nulled, violating the final invariant. -/
def nullInhRec : Record := { cleanRec with Inheritance := none }

/-- C1 witness: a one-row table with a null `Inheritance` aborts; a fully
populated row on build GRCh36 passes the check and lands only in the main
output. -/
theorem C1_invariant_check_and_partition_witness :
    finalStage [(0, nullInhRec)] =
      Except.error "Dataframe contains empty values after filtering and reformatting" ∧
    (∃ out : FinalOutputs, finalStage [(0, cleanRec)] = Except.ok out ∧
      out.filtered = [(0, cleanRec)] ∧
      (∀ p : Nat × Record, p ∈ out.build_37 ↔ (p ∈ [(0, cleanRec)] ∧ p.2.Build = some "GRCh37")) ∧
      (∀ p : Nat × Record, p ∈ out.build_38 ↔ (p ∈ [(0, cleanRec)] ∧ p.2.Build = some "GRCh38")) ∧
      (∀ p ∈ [(0, cleanRec)], p.2.Build ≠ some "GRCh37" → p.2.Build ≠ some "GRCh38" →
        p ∈ out.filtered ∧ p ∉ out.build_37 ∧ p ∉ out.build_38)) := by
  constructor
  · exact (C1_invariant_check_and_partition _).1
      ⟨_, List.mem_cons_self _ _, by decide⟩
  · exact (C1_invariant_check_and_partition _).2 (by decide)

/-- A row for the column-generic reformat engine: a mapping from column name
to cell, `none` being a null cell (the engine addresses columns purely by
name, so this is the faithful shape for it). -/
abbrev Row : Type := String → Option String

/-- A Python dict of string keys and values, as an association list. -/
abbrev Mapping := List (String × String)

/-- `mapping.get(key, default)` without its default: `some` of the stored
value when the key is present, else `none`. -/
def dictGet (m : Mapping) (k : String) : Option String :=
  (m.find? fun kv => kv.1 == k).map Prod.snd

/-- `df[c] = v` on one row: overwrite (or create) column `c` with `v`. -/
def setCol (r : Row) (c : String) (v : Option String) : Row :=
  fun c' => if c' = c then v else r c'

/-- Python truthiness of the `mapping` argument: a dict is truthy iff it is
non-`None` and non-empty. -/
def truthyMap : Option Mapping → Bool
  | none => false
  | some m => !m.isEmpty

/-- Python truthiness of a string argument such as `column`/`new_column`:
truthy iff non-`None` and non-empty. -/
def truthyCol : Option String → Bool
  | none => false
  | some s => !(s == "")

/-- One cell under `lambda x: mapping.get(x, "unknown")` (non-exhaustive) or
`lambda x: mapping.get(x, x)` (exhaustive).  A null cell (`NaN`) is never a
dict key, so it hits the default too. -/
def applyMapping (m : Mapping) (exhaustive : Bool) (v : Option String) : Option String :=
  match v with
  | none => if exhaustive then none else some "unknown"
  | some s =>
    match dictGet m s with
    | some t => some t
    | none => if exhaustive then some s else some "unknown"

/-- Result of a `reformat_columns` call: the dataframe object as it stands
after the call (the engine mutates it in place) and the raised error, if
any. -/
structure ReformatOutcome where
  state : List Row
  error : Option String

/-- `clinvar_data.reformat_columns`: in-place rewrite when
`replace and mapping and column and not new_column`; new-column derivation
when `new_column and mapping and column and not replace`; otherwise raise
`ValueError` without touching the frame. -/
def reformat_columns (df : List Row) (replace : Bool) (mapping : Option Mapping)
    (column newColumn : Option String) (exhaustive : Bool) : ReformatOutcome :=
  if replace && truthyMap mapping && truthyCol column && !truthyCol newColumn then
    { state := df.map fun r =>
        setCol r (column.getD "") (applyMapping (mapping.getD []) exhaustive (r (column.getD "")))
      error := none }
  else if truthyCol newColumn && truthyMap mapping && truthyCol column && !replace then
    { state := df.map fun r =>
        setCol r (newColumn.getD "") (applyMapping (mapping.getD []) exhaustive (r (column.getD "")))
      error := none }
  else
    { state := df, error := some "Invalid parameters for reformat_columns method" }

/-- The clinical-significance dict `clinsigs` of `variant_filter.py`. -/
def clinsigs : Mapping :=
  [("benign_variant", "Benign"),
   ("likely_benign_variant", "Likely benign"),
   ("variant_of_unknown_clinical_significance", "Uncertain significance"),
   ("likely_pathogenic_variant", "Likely pathogenic"),
   ("pathogenic_variant", "Pathogenic"),
   ("not_assessed", "not provided")]

theorem reformat_inplace_state (df : List Row) (m : Mapping) (c : String) (ex : Bool)
    (hm : m ≠ []) (hc : c ≠ "") :
    reformat_columns df true (some m) (some c) none ex =
      { state := df.map fun r => setCol r c (applyMapping m ex (r c)), error := none } := by
  have h1 : truthyMap (some m) = true := by
    simp [truthyMap, List.isEmpty_iff, hm]
  have h2 : truthyCol (some c) = true := by
    simp [truthyCol, hc]
  simp [reformat_columns, h1, h2, truthyCol, hc]

theorem reformat_newcol_state (df : List Row) (m : Mapping) (c nc : String) (ex : Bool)
    (hm : m ≠ []) (hc : c ≠ "") (hnc : nc ≠ "") :
    reformat_columns df false (some m) (some c) (some nc) ex =
      { state := df.map fun r => setCol r nc (applyMapping m ex (r c)), error := none } := by
  have h1 : truthyMap (some m) = true := by
    simp [truthyMap, List.isEmpty_iff, hm]
  have h2 : truthyCol (some c) = true := by
    simp [truthyCol, hc]
  have h3 : truthyCol (some nc) = true := by
    simp [truthyCol, hnc]
  simp [reformat_columns, h1, h2, h3]

/-- C5: in a valid addressing mode (in-place rewrite, or derivation of a new
column distinct from the source) no error is raised and, row by row: a source
value present in the mapping is replaced by its mapped value; with
`exhaustive = false` every source value absent from the mapping becomes
exactly `"unknown"` (nulls included); with `exhaustive = true` unmapped
source values pass through unchanged; and in new-column mode the source
column of every row is preserved unchanged. -/
theorem C5_reformat_modes (df : List Row) (m : Mapping) (c nc : String) (ex : Bool)
    (hm : m ≠ []) (hc : c ≠ "") (hnc : nc ≠ "") (hncc : nc ≠ c) :
    ((reformat_columns df true (some m) (some c) none ex).error = none) ∧
    ((reformat_columns df false (some m) (some c) (some nc) ex).error = none) ∧
    (∀ (i : Nat) (r r' : Row), df[i]? = some r →
      (reformat_columns df true (some m) (some c) none ex).state[i]? = some r' →
      (∀ v w, r c = some v → dictGet m v = some w → r' c = some w) ∧
      (ex = false → ∀ v, r c = some v → dictGet m v = none → r' c = some "unknown") ∧
      (ex = false → r c = none → r' c = some "unknown") ∧
      (ex = true → (∀ v, r c = some v → dictGet m v = none) → r' c = r c) ∧
      (∀ c', c' ≠ c → r' c' = r c')) ∧
    (∀ (i : Nat) (r r' : Row), df[i]? = some r →
      (reformat_columns df false (some m) (some c) (some nc) ex).state[i]? = some r' →
      (∀ v w, r c = some v → dictGet m v = some w → r' nc = some w) ∧
      (ex = false → ∀ v, r c = some v → dictGet m v = none → r' nc = some "unknown") ∧
      (ex = false → r c = none → r' nc = some "unknown") ∧
      (ex = true → (∀ v, r c = some v → dictGet m v = none) → r' nc = r c) ∧
      r' c = r c) := by
  rw [reformat_inplace_state df m c ex hm hc, reformat_newcol_state df m c nc ex hm hc hnc]
  refine ⟨rfl, rfl, ?_, ?_⟩
  · intro i r r' hr hr'
    simp only [List.getElem?_map, hr, Option.map_some'] at hr'
    have hr'' : r' = setCol r c (applyMapping m ex (r c)) := (Option.some.inj hr').symm
    subst hr''
    refine ⟨?_, ?_, ?_, ?_, ?_⟩
    · intro v w hv hw
      simp [setCol, applyMapping, hv, hw]
    · intro hex v hv hw
      simp [setCol, applyMapping, hv, hw, hex]
    · intro hex hv
      simp [setCol, applyMapping, hv, hex]
    · intro hex hmiss
      cases hv : r c with
      | none => simp [setCol, applyMapping, hv, hex]
      | some v => simp [setCol, applyMapping, hv, hex, hmiss v hv]
    · intro c' hc'
      simp [setCol, hc']
  · intro i r r' hr hr'
    simp only [List.getElem?_map, hr, Option.map_some'] at hr'
    have hr'' : r' = setCol r nc (applyMapping m ex (r c)) := (Option.some.inj hr').symm
    subst hr''
    refine ⟨?_, ?_, ?_, ?_, ?_⟩
    · intro v w hv hw
      simp [setCol, applyMapping, hv, hw]
    · intro hex v hv hw
      simp [setCol, applyMapping, hv, hw, hex]
    · intro hex hv
      simp [setCol, applyMapping, hv, hex]
    · intro hex hmiss
      cases hv : r c with
      | none => simp [setCol, applyMapping, hv, hex]
      | some v => simp [setCol, applyMapping, hv, hex, hmiss v hv]
    · have hcnc : c ≠ nc := fun h => hncc h.symm
      simp [setCol, hcnc]

/-- A concrete row whose `Classification` is `"benign_variant"` and whose
other columns are null. -/
def rowW : Row := fun col => if col = "Classification" then some "benign_variant" else none

/-- C5 witness: both valid modes run without error on a one-row frame, and
the in-place mode maps `"benign_variant"` to `"Benign"`. -/
theorem C5_reformat_modes_witness :
    (reformat_columns [rowW] true (some clinsigs) (some "Classification") none false).error = none ∧
    (reformat_columns [rowW] false (some clinsigs) (some "Classification")
      (some "Classification_reformated") false).error = none ∧
    setCol rowW "Classification"
      (applyMapping clinsigs false (rowW "Classification")) "Classification" = some "Benign" := by
  have h := C5_reformat_modes [rowW] clinsigs "Classification" "Classification_reformated" false
    (by decide) (by decide) (by decide) (by decide)
  refine ⟨h.1, h.2.1, ?_⟩
  exact (h.2.2.1 0 rowW
      (setCol rowW "Classification" (applyMapping clinsigs false (rowW "Classification")))
      rfl (by rw [reformat_inplace_state _ _ _ _ (by decide) (by decide)]; rfl)).1
    "benign_variant" "Benign" (by decide) (by decide)

/-- C7: a `reformat_columns` call in which neither the in-place rewrite mode
nor the new-column mode is configured raises the invalid-parameters
`ValueError` instead of silently no-opping, and the record collection is left
exactly as it was (the error is raised before any column is written). -/
theorem C7_invalid_config (df : List Row) (replace : Bool) (mapping : Option Mapping)
    (column newColumn : Option String) (ex : Bool)
    (h1 : (replace && truthyMap mapping && truthyCol column && !truthyCol newColumn) = false)
    (h2 : (truthyCol newColumn && truthyMap mapping && truthyCol column && !replace) = false) :
    (reformat_columns df replace mapping column newColumn ex).error =
      some "Invalid parameters for reformat_columns method" ∧
    (reformat_columns df replace mapping column newColumn ex).state = df := by
  constructor
  · simp [reformat_columns, h1, h2]
  · simp [reformat_columns, h1, h2]

/-- C7 witness: calling with everything unset errors and returns the frame
unchanged. -/
theorem C7_invalid_config_witness :
    (reformat_columns [rowW] false none none none false).error =
      some "Invalid parameters for reformat_columns method" ∧
    (reformat_columns [rowW] false none none none false).state = [rowW] :=
  C7_invalid_config [rowW] false none none none false (by decide) (by decide)

/-- C10: `reformat_columns` also raises its invalid-parameters error whenever
both addressing modes are requested at once (`replace` truthy together with a
non-empty `new_column`), whatever the other arguments are; in particular the
driver's own Classification call (`replace=True`, `mapping=clinsigs`,
`column="Classification"`, `new_column="Classification_reformated"`) raises
it on every input collection. -/
theorem C10_both_modes_error (df : List Row) (mapping : Option Mapping)
    (column : Option String) (nc : String) (ex : Bool) (hnc : nc ≠ "") :
    ((reformat_columns df true mapping column (some nc) ex).error =
      some "Invalid parameters for reformat_columns method") ∧
    ((reformat_columns df true (some clinsigs) (some "Classification")
        (some "Classification_reformated") false).error =
      some "Invalid parameters for reformat_columns method") := by
  have h3 : truthyCol (some nc) = true := by
    simp [truthyCol, hnc]
  have h4 : truthyCol (some "Classification_reformated") = true := by decide
  constructor
  · simp [reformat_columns, h3]
  · simp [reformat_columns, h4]

/-- C10 witness: the driver's Classification call errors on a one-row frame,
as does `replace=True` with a fresh non-empty `new_column`. -/
theorem C10_both_modes_error_witness :
    ((reformat_columns [rowW] true none none (some "X") false).error =
      some "Invalid parameters for reformat_columns method") ∧
    ((reformat_columns [rowW] true (some clinsigs) (some "Classification")
        (some "Classification_reformated") false).error =
      some "Invalid parameters for reformat_columns method") :=
  C10_both_modes_error [rowW] none none "X" false (by decide)

/-- `Series.str.contains(pat)` for a pattern with no regex metacharacters:
plain substring containment, tried at every position. -/
def containsSub (pat : List Char) : List Char → Bool
  | [] => pat.isEmpty
  | c :: rest => pat.isPrefixOf (c :: rest) || containsSub pat rest

/-- The mask `df["Proband_HPO_terms"].str.contains("HP:0000006", na=False)`
on one row: a null field gives `False` (`na=False`), otherwise substring
containment of the marker. -/
def probandContains (t : String) (r : Record) : Bool :=
  match r.Proband_HPO_terms with
  | some s => containsSub t.data s.data
  | none => false

/-- One left-to-right pass of `re.sub("<t>;|<t>$", "", s)` for a literal term
`t`: at each position first try to consume `t` followed by `";"`, then `t` at
end of string; otherwise copy one character.  `fuel` bounds the recursion and
is instantiated with the string length, which suffices because every step
consumes at least one character. -/
def subMarkerAux (t : List Char) : Nat → List Char → List Char
  | 0, s => s
  | _ + 1, [] => []
  | fuel + 1, c :: rest =>
    if (t ++ [';']).isPrefixOf (c :: rest) then
      subMarkerAux t fuel ((c :: rest).drop (t.length + 1))
    else if c :: rest = t then []
    else c :: subMarkerAux t fuel rest

/-- `s.replace(f"{t};|{t}$", "", regex=True)` on one string. -/
def stripTerm (t s : String) : String :=
  String.mk (subMarkerAux t.data s.data.length s.data)

/-- `noAnchored t s`: the string has no occurrence of the marker `t` followed
by the `";"` delimiter and no occurrence of `t` at the end of the string —
i.e. no match of the anchored removal pattern `t;|t$`. -/
def noAnchored (t : List Char) : List Char → Bool
  | [] => true
  | c :: rest =>
    !((t ++ [';']).isPrefixOf (c :: rest)) && !(decide (c :: rest = t)) && noAnchored t rest

theorem subMarkerAux_no_anchored (t : List Char) :
    ∀ (s : List Char) (fuel : Nat), noAnchored t s = true → subMarkerAux t fuel s = s := by
  intro s
  induction s with
  | nil =>
    intro fuel _
    cases fuel <;> rfl
  | cons c rest ih =>
    intro fuel h
    cases fuel with
    | zero => rfl
    | succ n =>
      simp only [noAnchored, Bool.and_eq_true, Bool.not_eq_true'] at h
      obtain ⟨⟨h1, h2⟩, h3⟩ := h
      have h2' : c :: rest ≠ t := of_decide_eq_false h2
      simp only [subMarkerAux]
      rw [if_neg (by simp [h1]), if_neg h2', ih n h3]

/-- `stripTerm` leaves any string with no anchored occurrence of the marker
unchanged: removal only fires on the marker followed by the delimiter or at
end of string. -/
theorem stripTerm_no_anchored (t s : String) (h : noAnchored t.data s.data = true) :
    stripTerm t s = s := by
  have h2 : subMarkerAux t.data s.data.length s.data = s.data :=
    subMarkerAux_no_anchored t.data s.data s.data.length h
  rw [stripTerm, h2]

/-- One row under the module-level mask assignment
`df.loc[mask, "Inheritance"] = "Autosomal dominant inheritance"`. -/
def rewriteRow (p : Nat × Record) : Nat × Record :=
  if probandContains "HP:0000006" p.2 then
    (p.1, { p.2 with Inheritance := some "Autosomal dominant inheritance" })
  else p

/-- One row under the module-level
`df["Proband_HPO_terms"].str.replace("HP:0000006;|HP:0000006$", "", regex=True)`
(`str.replace` maps a null through unchanged). -/
def stripRow (p : Nat × Record) : Nat × Record :=
  (p.1, { p.2 with Proband_HPO_terms := p.2.Proband_HPO_terms.map (stripTerm "HP:0000006") })

/-- Module-level inheritance rewrite of `variant_filter.py` (lines 327-329). -/
def inheritance_rewrite (df : DF) : DF := df.map rewriteRow

/-- Module-level marker removal of `variant_filter.py` (lines 336-338),
identical to `clinvar_data.remove_hpo_term` at term `HP:0000006`. -/
def remove_marker (df : DF) : DF := df.map stripRow

/-- The two steps in source order: rewrite the Inheritance column from the
containment mask, then strip the marker from the HPO-terms column. -/
def inheritance_rewrite_and_strip (df : DF) : DF := remove_marker (inheritance_rewrite df)

/-- The record of the C6 counterexample: its phenotype-term field holds a
single longer code that merely contains `HP:0000006` as a substring and has
no anchored occurrence of the marker. -/
def rcC6 : Record := { Proband_HPO_terms := some "HP:00000061", Inheritance := some "Unknown" }

/-- C6 counterexample: the claim says a longer code merely containing
`HP:0000006` as a substring is never treated as the marker; but on a record
whose phenotype-term field is exactly the longer code `"HP:00000061"` (no
anchored marker occurrence, as the first conjunct certifies) the detection
mask — plain substring containment — fires, so Inheritance is overwritten to
"Autosomal dominant inheritance" while the anchored removal leaves the field
untouched. -/
theorem C6_substring_counterexample :
    noAnchored "HP:0000006".data "HP:00000061".data = true ∧
    (inheritance_rewrite_and_strip [(0, rcC6)]).map
        (fun p => (p.2.Inheritance, p.2.Proband_HPO_terms)) =
      [(some "Autosomal dominant inheritance", some "HP:00000061")] := by
  decide

/-- C6 (amended): the inheritance rewrite triggers on plain substring
containment of `HP:0000006` in `Proband_HPO_terms` (not an anchored match):
any row whose field contains the marker as a substring gets
`Inheritance = "Autosomal dominant inheritance"`, any other row keeps its
Inheritance; the subsequent strip rewrites the field by removing exactly the
occurrences of the marker followed by the delimiter or at end of string, so a
string with no anchored occurrence passes through unchanged; on the spec's
example `"HP:0000006;HP:0001250"` the field becomes `"HP:0001250"`. -/
theorem C6_inheritance_rewrite_amended (df : DF) :
    ∀ (i : Nat) (p : Nat × Record), df[i]? = some p →
      ∃ q : Nat × Record, (inheritance_rewrite_and_strip df)[i]? = some q ∧
        q.1 = p.1 ∧
        (probandContains "HP:0000006" p.2 = true →
          q.2.Inheritance = some "Autosomal dominant inheritance") ∧
        (probandContains "HP:0000006" p.2 = false → q.2.Inheritance = p.2.Inheritance) ∧
        (∀ s : String, p.2.Proband_HPO_terms = some s →
          q.2.Proband_HPO_terms = some (stripTerm "HP:0000006" s)) ∧
        (∀ s : String, p.2.Proband_HPO_terms = some s →
          noAnchored "HP:0000006".data s.data = true → q.2.Proband_HPO_terms = some s) ∧
        (p.2.Proband_HPO_terms = none → q.2.Proband_HPO_terms = none) ∧
        (p.2.Proband_HPO_terms = some "HP:0000006;HP:0001250" →
          q.2.Proband_HPO_terms = some "HP:0001250") := by
  intro i p hp
  have hmap : (inheritance_rewrite_and_strip df)[i]? = some (stripRow (rewriteRow p)) := by
    simp [inheritance_rewrite_and_strip, remove_marker, inheritance_rewrite,
      List.getElem?_map, hp]
  refine ⟨stripRow (rewriteRow p), hmap, ?_, ?_, ?_, ?_, ?_, ?_, ?_⟩
  · by_cases hpc : probandContains "HP:0000006" p.2 = true <;>
      simp [stripRow, rewriteRow, hpc]
  · intro hpc
    simp [stripRow, rewriteRow, hpc]
  · intro hpc
    simp [stripRow, rewriteRow, hpc]
  · intro s hs
    by_cases hpc : probandContains "HP:0000006" p.2 = true <;>
      simp [stripRow, rewriteRow, hpc, hs]
  · intro s hs hna
    by_cases hpc : probandContains "HP:0000006" p.2 = true <;>
      simp [stripRow, rewriteRow, hpc, hs, stripTerm_no_anchored _ _ hna]
  · intro hs
    by_cases hpc : probandContains "HP:0000006" p.2 = true <;>
      simp [stripRow, rewriteRow, hpc, hs]
  · intro hs
    by_cases hpc : probandContains "HP:0000006" p.2 = true <;>
      simp [stripRow, rewriteRow, hpc, hs] <;> decide

/-- The record of the spec's inheritance-rewrite scenario. -/
def rcC6b : Record :=
  { Proband_HPO_terms := some "HP:0000006;HP:0001250", Inheritance := some "Unknown" }

/-- C6 witness: the amended theorem applied to the spec's scenario record. -/
theorem C6_inheritance_rewrite_amended_witness :
    ∃ q : Nat × Record, (inheritance_rewrite_and_strip [(0, rcC6b)])[0]? = some q ∧
      q.1 = (0, rcC6b).1 ∧
      (probandContains "HP:0000006" rcC6b = true →
        q.2.Inheritance = some "Autosomal dominant inheritance") ∧
      (probandContains "HP:0000006" rcC6b = false → q.2.Inheritance = rcC6b.Inheritance) ∧
      (∀ s : String, rcC6b.Proband_HPO_terms = some s →
        q.2.Proband_HPO_terms = some (stripTerm "HP:0000006" s)) ∧
      (∀ s : String, rcC6b.Proband_HPO_terms = some s →
        noAnchored "HP:0000006".data s.data = true → q.2.Proband_HPO_terms = some s) ∧
      (rcC6b.Proband_HPO_terms = none → q.2.Proband_HPO_terms = none) ∧
      (rcC6b.Proband_HPO_terms = some "HP:0000006;HP:0001250" →
        q.2.Proband_HPO_terms = some "HP:0001250") :=
  C6_inheritance_rewrite_amended [(0, rcC6b)] 0 (0, rcC6b) rfl

/-- `clinvar_data.insert_uuid` with the wall-clock reads made explicit.  The
code labels row `k` with `f"uid_{uuid.uuid1().time}"`, sleeping 1 ms between
draws; `uuid1().time` is the wall-clock timestamp of the draw, so `clock k`
is the timestamp returned by the `k`-th draw. -/
def insert_uuid (clock : Nat → Nat) (df : DF) : DF :=
  df.enum.map fun e => (e.2.1, { e.2.2 with UUID := some ("uid_" ++ toString (clock e.1)) })

/-- C9 failing run: the identifier scheme derives each `record_id` solely
from the wall-clock timestamp of its draw, so when two draws land in the
same clock tick (a timing race the 1 ms sleep merely makes unlikely) two
distinct rows receive the same identifier — uniqueness does depend on
wall-clock timing, contradicting the claim. -/
theorem C9_uuid_clock_collision :
    (insert_uuid (fun _ => 1000) [(0, cleanRec), (1, cleanRec)]).map (fun p => p.2.UUID) =
      [some "uid_1000", some "uid_1000"] ∧
    ∃ p ∈ insert_uuid (fun _ => 1000) [(0, cleanRec), (1, cleanRec)],
      ∃ q ∈ insert_uuid (fun _ => 1000) [(0, cleanRec), (1, cleanRec)],
        p.1 ≠ q.1 ∧ p.2.UUID = q.2.UUID := by
  decide
